import Mathlib

/-!
Verification of the sales-contract PDF service (`src/main.py`).

The program is a FastAPI application with two pieces of logic:
a file-backed sequence allocator (`get_next_counter`) and a PDF
layout routine (`generate_pdf`) that places text blocks on a single
A4 page with a downward-moving vertical cursor.

We embed the program shallowly:
* the counter file is an `Option Nat` state (`none` = file absent),
  and `get_next_counter` is a pure state transformer;
* the ReportLab canvas is a trace of drawing operations (`Op`);
  `generate_pdf_ops` reproduces the drawing calls of
  `generate_pdf` in order, threading the `y` cursor exactly as the
  Python code mutates it.  Coordinates are rationals; A4 dimensions
  are the exact rationals ReportLab defines (210mm x 297mm at
  72 points per inch).
-/

namespace SalesContract

/-- Input model, from the pydantic class `SalesContractData`
(`src/main.py` lines 16-39).  `notify_party` defaults to `[]`. -/
structure SalesContractData where
  contract_no : String
  date : String
  company_name : String
  tagline : String
  website : String
  email : String
  address : String
  gst_number : String
  seller : List String
  consignee : List String
  notify_party : List String := []
  product_name : String
  quantity : String
  price : String
  amount : String
  packing : String
  loading_port : String
  destination_port : String
  shipment : String
  sellers_bank : String
  account_no : String
  documents : String
  payment_terms : String
deriving DecidableEq, Repr

/-- Counter-file state: `none` when `counter.txt` does not exist,
`some v` when it exists and holds the integer `v`. -/
abbrev CounterStore := Option Nat

/-- `get_next_counter` (`src/main.py` lines 42-53), as a pure state
transformer returning (new file state, returned value).

If the file is absent the code writes the string "1" and returns 1;
otherwise it reads `count`, overwrites the file with `count + 1`
and returns `count`. -/
def get_next_counter : CounterStore → CounterStore × Nat
  | none => (some 1, 1)
  | some count => (some (count + 1), count)

/-- Run `n` successive allocation calls from a given store state,
collecting the returned values in call order. -/
def runAllocations : Nat → CounterStore → CounterStore × List Nat
  | 0, st => (st, [])
  | n + 1, st =>
      let r := get_next_counter st
      let rest := runAllocations n r.1
      (rest.1, r.2 :: rest.2)

/-! ## Page geometry (`src/main.py` lines 61-68)

ReportLab defines `A4 = (210*mm, 297*mm)` with `mm = 72/25.4`
points, so the exact dimensions are `75600/127` by `106920/127`. -/

def A4width : ℚ := 75600 / 127

def A4height : ℚ := 106920 / 127

def left_margin : ℚ := 50

def right_margin : ℚ := A4width - 50

def top_margin : ℚ := A4height - 40

def bottom_margin : ℚ := 50

/-- One canvas drawing operation.  Fonts, fill colours, strings and
the platypus table are recorded with their exact arguments. -/
inductive Op where
  | setFont (name : String) (size : ℚ)
  | setFillColor (color : String)
  | drawString (x y : ℚ) (text : String)
  | drawCentredString (x y : ℚ) (text : String)
  | drawRightString (x y : ℚ) (text : String)
  | drawTable (x y : ℚ) (data : List (List String))
  | drawImage (x y : ℚ) (asset : String)
deriving DecidableEq, Repr

/-! ## Layout (`src/main.py` lines 70-206)

`generate_pdf` draws blocks top-to-bottom, mutating a cursor `y`.
Each block below reproduces the drawing calls of the corresponding
code region; the full trace `generate_pdf_ops` concatenates them,
threading the cursor through the blocks that move it. -/

/-- Helper for `splitLines`: split a character list on each newline
character, keeping empty segments. -/
def splitCharsAux : List Char → List Char → List (List Char)
  | [], acc => [acc.reverse]
  | c :: rest, acc =>
      if c = '\n' then acc.reverse :: splitCharsAux rest []
      else splitCharsAux rest (c :: acc)

/-- Python `s.split("\n")`: one segment per newline-delimited piece,
empty segments kept (`"".split("\n") == [""]`,
`"a\nb\n".split("\n") == ["a", "b", ""]`). -/
def splitLines (s : String) : List String :=
  (splitCharsAux s.data []).map String.mk

/-- Python `s.upper()` (ASCII model): uppercase every character. -/
def upper (s : String) : String := String.mk (s.data.map Char.toUpper)

/-- `start_y = top_margin - 80` (line 90). -/
def start_y : ℚ := top_margin - 80

/-- Header block (lines 71-87). -/
def headerOps (d : SalesContractData) : List Op :=
  [ .setFont "Helvetica-Bold" 10, .setFillColor "grey",
    .drawString left_margin top_margin ("Website: " ++ d.website),
    .setFont "Helvetica-Bold" 16, .setFillColor "black",
    .drawCentredString (A4width / 2) top_margin (upper d.company_name),
    .setFont "Helvetica-Bold" 10, .setFillColor "grey",
    .drawRightString right_margin top_margin ("Email: " ++ d.email),
    .setFont "Helvetica" 11, .setFillColor "black",
    .drawCentredString (A4width / 2) (top_margin - 20) d.tagline,
    .setFont "Helvetica" 10,
    .drawString left_margin (top_margin - 40) ("Address: " ++ d.address),
    .drawRightString right_margin (top_margin - 40) ("GST: " ++ d.gst_number) ]

/-- Title and contract-info block (lines 89-95). -/
def titleOps (d : SalesContractData) : List Op :=
  [ .setFont "Helvetica-Bold" 14,
    .drawCentredString (A4width / 2) start_y "SALES CONTRACT",
    .setFont "Helvetica" 11,
    .drawString left_margin (start_y - 20) ("Contract No: " ++ d.contract_no),
    .drawRightString right_margin (start_y - 20) ("Date: " ++ d.date) ]

/-- `y = start_y - 60` (line 98): the y of the party block's label row. -/
def partyLabelY : ℚ := start_y - 60

/-- `notify_lines = data.notify_party if data.notify_party else ["TO ORDER"]`
(line 112). -/
def notifyLines (d : SalesContractData) : List String :=
  if d.notify_party = [] then ["TO ORDER"] else d.notify_party

/-- One party column:
`for i, line in enumerate(lines): c.drawString(x, y - ((i+1)*14), line)`,
with `i` starting from the given index. -/
def columnOpsFrom (x y : ℚ) : Nat → List String → List Op
  | _, [] => []
  | i, line :: rest =>
      .drawString x (y - (i + 1) * 14) line :: columnOpsFrom x y (i + 1) rest

def partyColumnOps (x y : ℚ) (lines : List String) : List Op :=
  columnOpsFrom x y 0 lines

/-- Party block (lines 97-114): labels at `x1, x2, x3 = 50, 230, 410`,
then the three columns. -/
def partyOps (d : SalesContractData) : List Op :=
  [ .setFont "Helvetica-Bold" 11,
    .drawString 50 partyLabelY "SELLER",
    .drawString 230 partyLabelY "CONSIGNEE | NOTIFY PARTY 1",
    .drawString 410 partyLabelY "NOTIFY PARTY 2",
    .setFont "Helvetica" 10 ]
  ++ partyColumnOps 50 partyLabelY d.seller
  ++ partyColumnOps 230 partyLabelY d.consignee
  ++ partyColumnOps 410 partyLabelY (notifyLines d)

/-- `max_lines = max(len(data.seller), len(data.consignee), len(notify_lines))`
(line 116). -/
def maxLines (d : SalesContractData) : Nat :=
  max d.seller.length (max d.consignee.length (notifyLines d).length)

/-- `y = y - ((max_lines + 2) * 14)` (line 117): the cursor after the
party block. -/
def yAfterParty (d : SalesContractData) : ℚ :=
  partyLabelY - (maxLines d + 2) * 14

/-- The platypus table's cell contents (lines 120-123). -/
def tableData (d : SalesContractData) : List (List String) :=
  [ ["Product", "Quantity", "Price (CIF), Colombo", "Amount(CIF)"],
    [d.product_name, d.quantity, d.price, d.amount] ]

/-- `y -= 130` after the table (line 136). -/
def yAfterTable (d : SalesContractData) : ℚ := yAfterParty d - 130

/-- Value-line loop shared by the dynamic and static field blocks
(lines 153-155, 177-179):
`for line in lines: c.drawString(x, y, line); y -= 14`.
Returns the ops and the cursor after the loop. -/
def fieldLines (x : ℚ) : ℚ → List String → List Op × ℚ
  | y, [] => ([], y)
  | y, line :: rest =>
      let r := fieldLines x (y - 14) rest
      (.drawString x y line :: r.1, r.2)

/-- One (label, value) pair of the dynamic-fields loop (lines 149-156):
bold label at `left_margin`, each segment of `value.split("\n")` at
`left_margin + 100`, cursor down 14 per segment plus a trailing 4. -/
def dynamicPairOps (label value : String) (y : ℚ) : List Op × ℚ :=
  let r := fieldLines (left_margin + 100) y (splitLines value)
  ([Op.setFont "Helvetica-Bold" 10, Op.drawString left_margin y (label ++ ":"),
    Op.setFont "Helvetica" 10] ++ r.1, r.2 - 4)

/-- `dynamic_details` (lines 139-148). -/
def dynamic_details (d : SalesContractData) : List (String × String) :=
  [ ("Packing", d.packing), ("Loading Port", d.loading_port),
    ("Destination Port", d.destination_port), ("Shipment", d.shipment),
    ("Seller’s Bank", d.sellers_bank), ("Account No.", d.account_no),
    ("Documents", d.documents), ("Payment Terms", d.payment_terms) ]

/-- The dynamic-fields loop over all pairs (lines 149-156). -/
def dynamicOps : List (String × String) → ℚ → List Op × ℚ
  | [], y => ([], y)
  | (label, value) :: rest, y =>
      let r1 := dynamicPairOps label value y
      let r2 := dynamicOps rest r1.2
      (r1.1 ++ r2.1, r2.2)

/-- `static_details` (lines 159-172): fixed pre-wrapped clause lines. -/
def static_details : List (String × List String) :=
  [ ("Arbitration",
     [ "In the event of any dispute between the parties arising out of this contract,",
       "all disputes shall be settled by the way of arbitration through a sole arbitration",
       "to be appointed by M/S Shraddha Impex. The place of arbitration shall be in Indore, M.P.",
       "and the laws of India with regards to arbitration shall be applicable to this Arbitration Clause." ]),
    ("Terms & Conditions",
     [ "1) In case of port congestion/skippance of vessel or any other port related disturbances,",
       "supplier or exporter will not be liable for any claim.",
       "2) Quality approved at load port by independent surveyors is final,",
       "and to be acceptable by both the parties and the seller will not be liable for any claim at destination port." ]) ]

/-- One (label, lines) pair of the static-details loop (lines 173-180):
like a dynamic pair, but the lines are used as given and the trailing
gap is 6. -/
def staticPairOps (label : String) (lines : List String) (y : ℚ) : List Op × ℚ :=
  let r := fieldLines (left_margin + 100) y lines
  ([Op.setFont "Helvetica-Bold" 10, Op.drawString left_margin y (label ++ ":"),
    Op.setFont "Helvetica" 10] ++ r.1, r.2 - 6)

/-- The static-details loop over all pairs (lines 173-180). -/
def staticOps : List (String × List String) → ℚ → List Op × ℚ
  | [], y => ([], y)
  | (label, lines) :: rest, y =>
      let r1 := staticPairOps label lines y
      let r2 := staticOps rest r1.2
      (r1.1 ++ r2.1, r2.2)

/-- Acceptance block (lines 182-193), starting at cursor `y`:
"Accepted" centred at `y`; `y -= 20`; the three "For," captions;
`y -= 50`; the first line of each party (empty string when the list is
empty; `notify_lines` is never empty). -/
def acceptanceOps (d : SalesContractData) (y : ℚ) : List Op :=
  [ .setFont "Helvetica-Bold" 11,
    .drawCentredString (A4width / 2) y "Accepted",
    .setFont "Helvetica" 10,
    .drawString 50 (y - 20) "For, Seller",
    .drawString 230 (y - 20) "For, Consignee",
    .drawString 400 (y - 20) "For, Notify Party",
    .drawString 50 (y - 70) (d.seller.headD ""),
    .drawString 230 (y - 70) (d.consignee.headD ""),
    .drawString 400 (y - 70) ((notifyLines d).headD "") ]

def footerLine1 : String :=
  "308, Third Floor, Fortune Business Center, 165 R.N.T. Marg, Indore 452001, M.P., India"

def footerLine2 : String :=
  "Tel: (+91) 731 2515151 • Fax: (+91) 731 4096348 • Email: shraddhaimpex@yahoo.com"

/-- Footer block (lines 195-199): two centred lines at the absolute
y-positions 35 and 22, not derived from the cursor. -/
def footerOps : List Op :=
  [ .setFont "Helvetica" 9, .setFillColor "black",
    .drawCentredString (A4width / 2) 35 footerLine1,
    .drawCentredString (A4width / 2) 22 footerLine2 ]

/-- The full drawing trace of `generate_pdf` (lines 70-199), with the
cursor threaded exactly as the code mutates `y`:
party block ends at `yAfterParty`, the table is drawn at
`yAfterParty - 100` (line 135), then `y -= 130`, then the dynamic and
static field loops, then the acceptance block, then the footer. -/
def generate_pdf_ops (d : SalesContractData) : List Op :=
  let dyn := dynamicOps (dynamic_details d) (yAfterTable d)
  let stat := staticOps static_details dyn.2
  headerOps d ++ titleOps d ++ partyOps d
    ++ [Op.drawTable left_margin (yAfterParty d - 100) (tableData d)]
    ++ dyn.1 ++ stat.1 ++ acceptanceOps d stat.2 ++ footerOps

/-- The HTTP response of the endpoint (lines 204-206). -/
structure PdfResponse where
  content : List Op
  media_type : String
  content_disposition : String
deriving DecidableEq, Repr

/-- `filename = f"Sales_Contract_{pdf_number}.pdf"` (line 59). -/
def filename (n : Nat) : String := "Sales_Contract_" ++ toString n ++ ".pdf"

/-- The layout engine's output for a record and an already-allocated
sequence number: the drawing trace plus content type and disposition
header (lines 59-206, with the counter call factored out). -/
def render (d : SalesContractData) (n : Nat) : PdfResponse :=
  { content := generate_pdf_ops d
    media_type := "application/pdf"
    content_disposition := "attachment; filename=" ++ filename n }

/-- The `/generate-pdf/` endpoint (lines 56-206): allocate the next
counter value, then render. -/
def generate_pdf (d : SalesContractData) (st : CounterStore) :
    CounterStore × PdfResponse :=
  let r := get_next_counter st
  (r.1, render d r.2)

/-- Modelled from the spec: the caption drawn in the logo's place.
`src/main.py` contains no logo drawing; the spec's failure semantics
(§4.2) say a failed logo acquisition falls back to "drawing a
placeholder caption in its place". -/
def logoPlaceholderCaption : String := "Company Logo"

/-- Modelled from the spec: `src/main.py` under `src/` has no header
logo/image code; the spec (§4.2 block 1) describes an optional
decorative header image, and its failure semantics make a missing or
unacquirable asset non-fatal, replaced by a placeholder caption.
`logo` is `some asset` when the image was acquired, `none` when it is
missing or could not be acquired. -/
def headerLogoOps : Option String → List Op
  | some asset => [Op.drawImage (A4width / 2) top_margin asset]
  | none => [Op.drawString (A4width / 2) top_margin logoPlaceholderCaption]

/-- Modelled from the spec: rendering with the decorative logo asset.
The only failure the spec allows the engine itself to meet is the
decorative-asset one, which is recovered locally, so the render as a
whole always succeeds (`Except.ok`). -/
def renderWithLogo (d : SalesContractData) (n : Nat) (logo : Option String) :
    Except String PdfResponse :=
  Except.ok
    { content := headerLogoOps logo ++ generate_pdf_ops d
      media_type := "application/pdf"
      content_disposition := "attachment; filename=" ++ filename n }

/-- A concrete record used to instantiate universally quantified
theorems. -/
def sampleRecord : SalesContractData :=
  { contract_no := "SC-001", date := "01-01-2024",
    company_name := "Shraddha Impex", tagline := "Exporters",
    website := "www.example.com", email := "info@example.com",
    address := "Indore", gst_number := "GST123",
    seller := ["Shraddha Impex", "Indore"],
    consignee := ["Buyer Co", "Colombo"],
    notify_party := [],
    product_name := "Rice", quantity := "100 MT", price := "450",
    amount := "45000", packing := "PP Bags",
    loading_port := "Mundra", destination_port := "Colombo",
    shipment := "March 2024", sellers_bank := "SBI",
    account_no := "12345", documents := "Invoice",
    payment_terms := "Line A\nLine B" }

/-- A record with empty seller and notify-party lists. -/
def emptyPartiesRecord : SalesContractData :=
  { sampleRecord with seller := [], notify_party := [] }

/-! ## Claims -/

/-- Claim C1 (code bug): the claim says N allocation calls against a
fresh store return exactly the set 1..N with no duplicates.  The code
violates this: on a fresh store the first call writes "1" (not the
post-allocation value "2") and returns 1, so the second call reads 1
and returns 1 again.  Two calls return the list [1, 1], which has a
duplicate. -/
theorem c1_fresh_store_allocations_duplicate :
    (runAllocations 2 none).2 = [1, 1] ∧ ¬ (runAllocations 2 none).2.Nodup := by
  decide

/-- Claim C2 (code bug): the claim says the first allocation on an
absent counter file creates the store holding the post-allocation
value 2 and returns 1.  The code does return 1 but creates the store
holding 1, so the next call returns 1 instead of 2. -/
theorem c2_first_allocation_creates_store_with_one :
    get_next_counter none = (some 1, 1) ∧
    (get_next_counter (get_next_counter none).1).2 = 1 := by
  decide

/-- Claim C3: the render is deterministic — two invocations with an
identical record and identical sequence number produce identical
output.  The embedded renderer is a pure function of the record and
the sequence number (the code reads no other state during layout), so
equal inputs give equal responses, drawing trace included. -/
theorem c3_render_deterministic (d₁ d₂ : SalesContractData) (n₁ n₂ : Nat)
    (hd : d₁ = d₂) (hn : n₁ = n₂) : render d₁ n₁ = render d₂ n₂ := by
  subst hd; subst hn; rfl

/-- Witness for C3 at a concrete record and sequence number. -/
theorem c3_render_deterministic_witness :
    render sampleRecord 1 = render sampleRecord 1 :=
  c3_render_deterministic sampleRecord sampleRecord 1 1 rfl rfl

/-- Claim C9: the response carries media type `application/pdf` and a
disposition header proposing exactly `Sales_Contract_<s>.pdf`, where
`s` is the value the allocator returned for this request. -/
theorem c9_response_media_type_and_disposition
    (d : SalesContractData) (st : CounterStore) :
    (generate_pdf d st).2.media_type = "application/pdf" ∧
    (generate_pdf d st).2.content_disposition =
      "attachment; filename=" ++
        ("Sales_Contract_" ++ toString (get_next_counter st).2 ++ ".pdf") :=
  ⟨rfl, rfl⟩

/-- Claim C7: the two footer lines are a constant suffix of every
trace, drawn centred at the absolute y-positions 35 and 22 — constants
independent of the record and of how far the cursor has moved. -/
theorem c7_footer_fixed_vertical_position (d : SalesContractData) :
    ∃ l : List Op, generate_pdf_ops d =
      l ++ [ Op.setFont "Helvetica" 9, Op.setFillColor "black",
             Op.drawCentredString (A4width / 2) 35 footerLine1,
             Op.drawCentredString (A4width / 2) 22 footerLine2 ] := by
  refine ⟨headerOps d ++ titleOps d ++ partyOps d
      ++ [Op.drawTable left_margin (yAfterParty d - 100) (tableData d)]
      ++ (dynamicOps (dynamic_details d) (yAfterTable d)).1
      ++ (staticOps static_details
            (dynamicOps (dynamic_details d) (yAfterTable d)).2).1
      ++ acceptanceOps d
          (staticOps static_details
            (dynamicOps (dynamic_details d) (yAfterTable d)).2).2, ?_⟩
  simp [generate_pdf_ops, footerOps, List.append_assoc]

/-- Claim C8 (modelled from the spec, logo code absent from src):
with the logo asset missing or unacquirable, the render still succeeds
and its output contains the placeholder caption drawn in the logo's
place. -/
theorem c8_missing_logo_placeholder (d : SalesContractData) (n : Nat) :
    ∃ resp, renderWithLogo d n none = Except.ok resp ∧
      Op.drawString (A4width / 2) top_margin logoPlaceholderCaption ∈
        resp.content := by
  refine ⟨_, rfl, ?_⟩
  simp [headerLogoOps]

/-- Claim C4: the party block advances the cursor by exactly
`(max(len(seller), len(consignee), len(notify)) + 2)` line-heights of
14 points, where the notify length is measured after substituting the
single line "TO ORDER" for an empty `notify_party`; and the product
table — the next block — is anchored in the trace at the fixed offset
100 below that cursor position. -/
theorem c4_party_block_advance (d : SalesContractData) :
    partyLabelY - yAfterParty d =
      (max d.seller.length (max d.consignee.length
        (if d.notify_party = [] then 1 else d.notify_party.length)) + 2 : ℚ) * 14
    ∧ Op.drawTable left_margin (yAfterParty d - 100) (tableData d) ∈
        generate_pdf_ops d := by
  constructor
  · unfold yAfterParty maxLines notifyLines
    by_cases h : d.notify_party = [] <;> simp [h]
  · simp [generate_pdf_ops, List.mem_append]

/-- The value-line loop draws one op per line at the given x, moving
the cursor down 14 points per line: the final cursor is
`y - 14 * lines.length`, there is exactly one op per line, and the
i-th op draws the i-th line at `y - 14 * i`. -/
theorem fieldLines_spec (x : ℚ) (lines : List String) : ∀ y : ℚ,
    (fieldLines x y lines).2 = y - 14 * lines.length
    ∧ (fieldLines x y lines).1.length = lines.length
    ∧ ∀ i : Nat, i < lines.length →
        (fieldLines x y lines).1.getD i (Op.setFont "" 0)
          = Op.drawString x (y - 14 * i) (lines.getD i "") := by
  induction lines with
  | nil =>
      intro y
      refine ⟨by simp [fieldLines], by simp [fieldLines], ?_⟩
      intro i hi
      simp at hi
  | cons a rest ih =>
      intro y
      obtain ⟨h1, h2, h3⟩ := ih (y - 14)
      refine ⟨?_, ?_, ?_⟩
      · simp only [fieldLines, h1, List.length_cons]
        push_cast
        ring
      · simp [fieldLines, h2]
      · intro i hi
        cases i with
        | zero => simp [fieldLines]
        | succ n =>
            have hn : n < rest.length := by
              simpa using Nat.lt_of_succ_lt_succ hi
            have hrec := h3 n hn
            simp only [fieldLines, List.getD_cons_succ, hrec]
            congr 1
            push_cast
            ring

/-- Claim C5: every key-value field's value is split on the newline
marker and rendered one physical line per segment at the value indent
`left_margin + 100`, the cursor moving down one line-height (14) per
segment — a two-segment value moves it down two line-heights — and the
segments are drawn verbatim, never reflowed or merged; the pair as a
whole additionally adds the fixed 4-point gap. -/
theorem c5_value_line_breaks (value : String) (y : ℚ) :
    ((fieldLines (left_margin + 100) y (splitLines value)).2
        = y - 14 * (splitLines value).length
      ∧ (fieldLines (left_margin + 100) y (splitLines value)).1.length
        = (splitLines value).length
      ∧ ∀ i : Nat, i < (splitLines value).length →
          (fieldLines (left_margin + 100) y (splitLines value)).1.getD i
              (Op.setFont "" 0)
            = Op.drawString (left_margin + 100) (y - 14 * i)
                ((splitLines value).getD i ""))
    ∧ ∀ label, (dynamicPairOps label value y).2
        = y - 14 * (splitLines value).length - 4 := by
  obtain ⟨h1, h2, h3⟩ := fieldLines_spec (left_margin + 100) (splitLines value) y
  exact ⟨⟨h1, h2, h3⟩, fun _ => by simp [dynamicPairOps, h1]⟩

/-- Witness for C5 at the value "Line A\nLine B", start cursor 500 and
segment index 1: the second segment "Line B" is drawn at the value
indent, one line-height below the first. -/
theorem c5_value_line_breaks_witness :
    1 < (splitLines "Line A\nLine B").length ∧
    (fieldLines (left_margin + 100) 500 (splitLines "Line A\nLine B")).1.getD 1
        (Op.setFont "" 0)
      = Op.drawString (left_margin + 100) (500 - 14 * ((1 : Nat) : ℚ))
          ((splitLines "Line A\nLine B").getD 1 "") :=
  ⟨by decide, (c5_value_line_breaks "Line A\nLine B" 500).1.2.2 1 (by decide)⟩

/-- Claim C6: with an empty `notify_party` the party block's third
column is exactly the single line "TO ORDER" and the signature block's
notify-party line reads "TO ORDER"; and for every record the signature
block draws the first line of seller and of consignee, with the empty
string when the list is empty. -/
theorem c6_to_order_and_first_lines (d : SalesContractData) (y : ℚ) :
    (d.notify_party = [] →
      partyColumnOps 410 partyLabelY (notifyLines d)
          = [Op.drawString 410 (partyLabelY - 14) "TO ORDER"]
        ∧ (acceptanceOps d y).getD 8 (Op.setFont "" 0)
          = Op.drawString 400 (y - 70) "TO ORDER")
    ∧ (acceptanceOps d y).getD 6 (Op.setFont "" 0)
        = Op.drawString 50 (y - 70) (d.seller.headD "")
    ∧ (acceptanceOps d y).getD 7 (Op.setFont "" 0)
        = Op.drawString 230 (y - 70) (d.consignee.headD "")
    ∧ (d.seller = [] →
        (acceptanceOps d y).getD 6 (Op.setFont "" 0)
          = Op.drawString 50 (y - 70) "") := by
  refine ⟨?_, rfl, rfl, ?_⟩
  · intro h
    constructor
    · simp [partyColumnOps, columnOpsFrom, notifyLines, h]
    · simp [acceptanceOps, notifyLines, h]
  · intro h
    simp [acceptanceOps, h]

/-- Witness for C6 at a record with empty notify-party and seller
lists. -/
theorem c6_to_order_and_first_lines_witness :
    emptyPartiesRecord.notify_party = [] ∧ emptyPartiesRecord.seller = [] ∧
    partyColumnOps 410 partyLabelY (notifyLines emptyPartiesRecord)
        = [Op.drawString 410 (partyLabelY - 14) "TO ORDER"] ∧
    (acceptanceOps emptyPartiesRecord 300).getD 6 (Op.setFont "" 0)
        = Op.drawString 50 (300 - 70) "" :=
  ⟨rfl, rfl,
   ((c6_to_order_and_first_lines emptyPartiesRecord 300).1 rfl).1,
   (c6_to_order_and_first_lines emptyPartiesRecord 300).2.2.2 rfl⟩

/-- Every line of a column's list gets a drawString op at that
column's x in the enumerate loop's output. -/
theorem exists_mem_columnOpsFrom (x y : ℚ) (line : String) :
    ∀ (i : Nat) (lines : List String), line ∈ lines →
      ∃ yv, Op.drawString x yv line ∈ columnOpsFrom x y i lines := by
  intro i lines
  induction lines generalizing i with
  | nil => intro h; exact absurd h (List.not_mem_nil _)
  | cons a rest ih =>
      intro h
      rcases List.mem_cons.mp h with h1 | h2
      · subst h1
        exact ⟨y - (i + 1) * 14, List.mem_cons_self _ _⟩
      · obtain ⟨yv, hm⟩ := ih (i + 1) h2
        exact ⟨yv, List.mem_cons_of_mem _ hm⟩

/-- Claim C10: the company name is drawn in the header uppercased,
whatever casing the caller supplied, while other free-text fields are
drawn verbatim: the tagline op carries the raw tagline, and every
seller line appears verbatim at the seller column x = 50. -/
theorem c10_company_name_uppercased (d : SalesContractData) :
    Op.drawCentredString (A4width / 2) top_margin (upper d.company_name)
        ∈ generate_pdf_ops d
    ∧ Op.drawCentredString (A4width / 2) (top_margin - 20) d.tagline
        ∈ generate_pdf_ops d
    ∧ ∀ line ∈ d.seller, ∃ yv,
        Op.drawString 50 yv line ∈ generate_pdf_ops d := by
  refine ⟨?_, ?_, ?_⟩
  · simp [generate_pdf_ops, headerOps, List.mem_append]
  · simp [generate_pdf_ops, headerOps, List.mem_append]
  · intro line hl
    obtain ⟨yv, hm⟩ := exists_mem_columnOpsFrom 50 partyLabelY line 0 d.seller hl
    refine ⟨yv, ?_⟩
    simp [generate_pdf_ops, partyOps, partyColumnOps, List.mem_append]
    tauto

/-- Witness for C10: at the sample record, "Indore" is a seller line
and is drawn verbatim somewhere in the trace. -/
theorem c10_company_name_uppercased_witness :
    ("Indore" ∈ sampleRecord.seller) ∧
    ∃ yv, Op.drawString 50 yv "Indore" ∈ generate_pdf_ops sampleRecord :=
  ⟨by decide,
   (c10_company_name_uppercased sampleRecord).2.2 "Indore" (by decide)⟩

end SalesContract
